import Mathlib

/-!
Verification of the skuldbot studio debugger backend
(`src/studio/src-tauri/src/main.rs`, debug commands) against its
specification.  The development has two layers:

* a shallow embedding of the Rust code itself: the `serde` data types
  (`DebugNodeExecution`, `DebugSessionState`, `DebugCommandResult`), their
  JSON (de)serialization as derived by `serde` with the `rename`
  attributes, and the pure bodies of `debug_get_variables`, `debug_stop`
  and the stdout-line post-processing shared by `debug_start`,
  `debug_step` and `debug_continue`;

* a model of the debug session state machine (`InteractiveExecutor`)
  whose Python source is not part of this repository: the Rust commands
  only shell out to it, so the machine is modelled from the
  specification (sections 3, 4.2, 4.3, 4.4, 7).

JSON numbers are modelled as integers (`Int`): the floating point
representation of timestamps is irrelevant to every claim treated here.
-/

set_option autoImplicit false

namespace Skuldbot

/-- JSON values, modelling `serde_json::Value`.  Objects are association
lists in emission order; numbers are modelled as integers. -/
inductive Json : Type where
  | null : Json
  | bool : Bool → Json
  | num : Int → Json
  | str : String → Json
  | arr : List Json → Json
  | obj : List (String × Json) → Json

/-- First binding of `key` in an association list (a `serde_json` map has
unique keys, so first and last coincide on values it produces). -/
def lookupField {α : Type} : List (String × α) → String → Option α
  | [], _ => none
  | (k, v) :: rest, key => if k = key then some v else lookupField rest key

/-- `serde_json::Value::get` with a string index: field lookup on an
object, `None` on every other value. -/
def Json.get (j : Json) (key : String) : Option Json :=
  match j with
  | .obj fs => lookupField fs key
  | _ => none

/-- Rust struct `DebugNodeExecution` (main.rs lines 46-61).  `f64`
timestamps are modelled as `Int`. -/
structure DebugNodeExecution : Type where
  node_id : String
  node_type : String
  label : String
  status : String
  start_time : Option Int
  end_time : Option Int
  output : Option Json
  error : Option String
  vars : Json

/-- Rust struct `DebugSessionState` (main.rs lines 63-81).  The
`HashMap<String, DebugNodeExecution>` is modelled as an association
list, which is what its JSON form is. -/
structure DebugSessionState : Type where
  session_id : String
  state : String
  current_node_id : Option String
  breakpoints : List String
  execution_order : List String
  node_executions : List (String × DebugNodeExecution)
  global_variables : Json
  start_time : Int
  paused_at_breakpoint : Bool

/-- Rust struct `DebugCommandResult` (main.rs lines 91-99). -/
structure DebugCommandResult : Type where
  success : Bool
  message : Option String
  session_state : Option DebugSessionState
  last_event : Option Json

/-! ### serde serialization of the session types

`serde` with the `rename` attributes of the source emits every field,
with `None` of an `Option` field emitted as `null`. -/

/-- serde emission of an `Option<f64>` field. -/
def serializeOptNum : Option Int → Json
  | none => .null
  | some n => .num n

/-- serde emission of an `Option<String>` field. -/
def serializeOptStr : Option String → Json
  | none => .null
  | some s => .str s

/-- serde emission of an `Option<serde_json::Value>` field. -/
def serializeOptVal : Option Json → Json
  | none => .null
  | some v => v

/-- serde serialization of `DebugNodeExecution`, with the field renames
of the source (`nodeId`, `nodeType`, `startTime`, `endTime`). -/
def serializeNodeExecution (r : DebugNodeExecution) : Json :=
  .obj [("nodeId", .str r.node_id),
        ("nodeType", .str r.node_type),
        ("label", .str r.label),
        ("status", .str r.status),
        ("startTime", serializeOptNum r.start_time),
        ("endTime", serializeOptNum r.end_time),
        ("output", serializeOptVal r.output),
        ("error", serializeOptStr r.error),
        ("variables", r.vars)]

/-- serde serialization of `DebugSessionState`, with the field renames of
the source. -/
def serializeSession (s : DebugSessionState) : Json :=
  .obj [("sessionId", .str s.session_id),
        ("state", .str s.state),
        ("currentNodeId", serializeOptStr s.current_node_id),
        ("breakpoints", .arr (s.breakpoints.map .str)),
        ("executionOrder", .arr (s.execution_order.map .str)),
        ("nodeExecutions",
          .obj (s.node_executions.map (fun p => (p.1, serializeNodeExecution p.2)))),
        ("globalVariables", s.global_variables),
        ("startTime", .num s.start_time),
        ("pausedAtBreakpoint", .bool s.paused_at_breakpoint)]

/-! ### serde deserialization -/

/-- Decode a JSON string. -/
def asStr : Json → Option String
  | .str s => some s
  | _ => none

/-- Decode a JSON number (into the `Int` model of `f64`). -/
def asNum : Json → Option Int
  | .num n => some n
  | _ => none

/-- Decode a JSON boolean. -/
def asBool : Json → Option Bool
  | .bool b => some b
  | _ => none

/-- Element-wise string decoding of a JSON array. -/
def decodeStrList : List Json → Option (List String)
  | [] => some []
  | x :: rest => do
    let s ← asStr x
    let ss ← decodeStrList rest
    pure (s :: ss)

/-- Decode a JSON array of strings (`Vec<String>`). -/
def asStrList : Json → Option (List String)
  | .arr xs => decodeStrList xs
  | _ => none

/-- serde decoding of a required struct field: the key must be present
and its value must decode. -/
def getReqField {α : Type} (fs : List (String × Json)) (key : String)
    (dec : Json → Option α) : Option α :=
  (lookupField fs key).bind dec

/-- serde decoding of an `Option` struct field: a missing key and a
`null` value are `None`; any other value must decode. -/
def getOptField {α : Type} (fs : List (String × Json)) (key : String)
    (dec : Json → Option α) : Option (Option α) :=
  match lookupField fs key with
  | none => some none
  | some .null => some none
  | some v => (dec v).map some

/-- serde deserialization of `DebugNodeExecution` from a JSON value. -/
def deserializeNodeExecution (j : Json) : Option DebugNodeExecution :=
  match j with
  | .obj fs => do
    let node_id ← getReqField fs "nodeId" asStr
    let node_type ← getReqField fs "nodeType" asStr
    let label ← getReqField fs "label" asStr
    let status ← getReqField fs "status" asStr
    let start_time ← getOptField fs "startTime" asNum
    let end_time ← getOptField fs "endTime" asNum
    let output ← getOptField fs "output" (fun v => some v)
    let error ← getOptField fs "error" asStr
    let vs ← lookupField fs "variables"
    pure { node_id := node_id, node_type := node_type, label := label,
           status := status, start_time := start_time, end_time := end_time,
           output := output, error := error, vars := vs }
  | _ => none

/-- Decode the `nodeExecutions` object entry-wise. -/
def decodeNodeExecList : List (String × Json) → Option (List (String × DebugNodeExecution))
  | [] => some []
  | (k, v) :: rest => do
    let r ← deserializeNodeExecution v
    let rs ← decodeNodeExecList rest
    pure ((k, r) :: rs)

/-- serde deserialization of `DebugSessionState` from a JSON value
(what `serde_json::from_value::<DebugSessionState>` does). -/
def deserializeSession (j : Json) : Option DebugSessionState :=
  match j with
  | .obj fs => do
    let session_id ← getReqField fs "sessionId" asStr
    let state ← getReqField fs "state" asStr
    let current_node_id ← getOptField fs "currentNodeId" asStr
    let breakpoints ← getReqField fs "breakpoints" asStrList
    let execution_order ← getReqField fs "executionOrder" asStrList
    let node_executions ← getReqField fs "nodeExecutions"
        (fun v => match v with
          | .obj entries => decodeNodeExecList entries
          | _ => none)
    let global_variables ← lookupField fs "globalVariables"
    let start_time ← getReqField fs "startTime" asNum
    let paused_at_breakpoint ← getReqField fs "pausedAtBreakpoint" asBool
    pure { session_id := session_id, state := state,
           current_node_id := current_node_id, breakpoints := breakpoints,
           execution_order := execution_order,
           node_executions := node_executions,
           global_variables := global_variables, start_time := start_time,
           paused_at_breakpoint := paused_at_breakpoint }
  | _ => none

/-! ### debug_get_variables (main.rs lines 895-912) -/

/-- Body of `debug_get_variables` after the session JSON has been
parsed: with a node id, look the node up under `nodeExecutions` and
return its `variables` field (default empty object), or an empty object
when the node has no entry; without a node id, return the
`globalVariables` field (default empty object). -/
def get_variables_core (session : Json) (node_id : Option String) : Except String Json :=
  match node_id with
  | some nid =>
    match (session.get "nodeExecutions").bind (fun ne => ne.get nid) with
    | some node_exec => .ok ((node_exec.get "variables").getD (.obj []))
    | none => .ok (.obj [])
  | none => .ok ((session.get "globalVariables").getD (.obj []))

/-- `debug_get_variables`: parse the session JSON (an unparseable input
fails with a message built by `format!("Invalid session state: ...")`),
then read the requested variables.  The string-to-JSON parser of
`serde_json` is abstracted as the `parse` argument. -/
def debug_get_variables (parse : String → Except String Json)
    (session_state_json : String) (node_id : Option String) : Except String Json :=
  match parse session_state_json with
  | .error e => .error ("Invalid session state: " ++ e)
  | .ok session => get_variables_core session node_id

/-! ### debug_stop (main.rs lines 874-891)

The Rust command takes no session argument: it kills the external debug
process (an I/O effect outside this pure model) and returns a constant
result with no session state. -/

/-- Result value of `debug_stop`. -/
def debug_stop : DebugCommandResult :=
  { success := true
    message := some "Debug session stopped"
    session_state := none
    last_event := some (.obj [("type", .str "stopped")]) }

/-! ### stdout post-processing of debug_start / debug_step / debug_continue
(main.rs lines 642-658, 751-770, 850-869)

Each command reads the stdout of the spawned interpreter line by line;
a line that parses as JSON becomes `last_event`, and if it carries
`"type": "state"` and a `session` field, `session_state` is set to the
deserialization of that field (`.ok()`, so a failed deserialization
resets it to `None`). -/

/-- One parsed stdout line folded into the
`(session_state, last_event)` accumulator. -/
def processLine (acc : Option DebugSessionState × Option Json) (msg : Json) :
    Option DebugSessionState × Option Json :=
  let ss :=
    match msg.get "type" with
    | some (.str "state") =>
      match msg.get "session" with
      | some sv => deserializeSession sv
      | none => acc.1
    | _ => acc.1
  (ss, some msg)

/-- The full line loop: lines that fail to parse as JSON are skipped.
The line parser of `serde_json` is abstracted as `pj`. -/
def processOutputLines (pj : String → Option Json) (lines : List String) :
    Option DebugSessionState × Option Json :=
  lines.foldl
    (fun acc line =>
      match pj line with
      | none => acc
      | some msg => processLine acc msg)
    (none, none)

/-- Command result assembly shared by the three debug commands:
`success` is whether a session state was recovered. -/
def buildCommandResult (pj : String → Option Json) (lines : List String)
    (m : String) : DebugCommandResult :=
  let r := processOutputLines pj lines
  { success := r.1.isSome, message := some m, session_state := r.1,
    last_event := r.2 }

/-- Result of `debug_step` as a function of the stdout lines of the
spawned interpreter (message fixed to "Step executed"). -/
def debug_step_result (pj : String → Option Json) (lines : List String) :
    DebugCommandResult :=
  buildCommandResult pj lines "Step executed"

/-- Result of `debug_continue` as a function of the stdout lines of the
spawned interpreter (message fixed to "Continued"). -/
def debug_continue_result (pj : String → Option Json) (lines : List String) :
    DebugCommandResult :=
  buildCommandResult pj lines "Continued"

/-- The `session` payload of a stdout message: present exactly when the
message carries `"type": "state"` and a `session` field. -/
def sessionPayload (msg : Json) : Option Json :=
  match msg.get "type" with
  | some (.str "state") => msg.get "session"
  | _ => none

/-- The `session` payload of the last stdout line that parses as JSON
with `"type": "state"` and a `session` field present. -/
def lastSessionField (pj : String → Option Json) (lines : List String) : Option Json :=
  (lines.filterMap pj).foldl (fun acc msg => (sessionPayload msg).or acc) none

/-- The last stdout line that parses as JSON at all. -/
def lastParsedLine (pj : String → Option Json) (lines : List String) : Option Json :=
  (lines.filterMap pj).getLast?

/-! ### The debug session state machine

Modelled from the spec: the stepping core lives in the Python module
`skuldbot.executor.interactive_executor`, which is not part of this
repository; the Rust commands only spawn it.  The definitions below
follow spec sections 3 (data model), 4.1 (flow graph), 4.2 (state
machine), 4.3 (step), 4.4 (continue) and 7 (error taxonomy). -/

/-- Modelled from the spec: session states (spec section 3). -/
inductive SessionState : Type where
  | running : SessionState
  | paused : SessionState
  | completed : SessionState
  | failed : SessionState
  | stopped : SessionState
  deriving DecidableEq

/-- Modelled from the spec: per-node statuses (spec section 3). -/
inductive NodeStatus : Type where
  | pending : NodeStatus
  | running : NodeStatus
  | success : NodeStatus
  | error : NodeStatus
  | skipped : NodeStatus
  deriving DecidableEq

/-- Modelled from the spec: a NodeExecution record (spec section 3);
the field named `variables` in the spec is `vars` here. -/
structure NodeExecution : Type where
  node_id : String
  node_type : String
  label : String
  status : NodeStatus
  start_time : Option Int
  end_time : Option Int
  output : Option Json
  error : Option String
  vars : List (String × Json)

/-- Modelled from the spec: a node definition with its labeled output
edges; an outcome with no edge entry is terminal (spec sections 3, 4.1).
Duplicate entries for one outcome resolve to the first declared. -/
structure NodeDef : Type where
  node_type : String
  label : String
  config : Json
  output_edges : List (String × String)

/-- Modelled from the spec: the immutable flow graph, nodes in
declaration order (spec section 3). -/
structure FlowGraph : Type where
  nodes : List (String × NodeDef)

/-- Modelled from the spec: the full DebugSession snapshot (spec
section 3). -/
structure DebugSession : Type where
  session_id : String
  state : SessionState
  current_node_id : Option String
  breakpoints : List String
  execution_order : List String
  node_executions : List (String × NodeExecution)
  global_variables : List (String × Json)
  start_time : Int
  paused_at_breakpoint : Bool

/-- Modelled from the spec: the error taxonomy of section 7 (the
`NodeExecutionFailed` case is data recorded on the node, not a call
failure). -/
inductive DebugError : Type where
  | unknownNode : DebugError
  | sessionTerminated : DebugError
  | divergenceDetected : DebugError
  deriving DecidableEq

/-- Modelled from the spec: the outcome record of the Node Execution
Adapter (spec section 6). -/
structure AdapterResult : Type where
  outcome : String
  output : Option Json
  bindings : List (String × Json)
  error_message : Option String

/-- Modelled from the spec: the Node Execution Adapter, the injected
"run one node" capability (spec sections 2, 6); it is a function, hence
deterministic. -/
def Adapter : Type := NodeDef → List (String × Json) → AdapterResult

/-- Modelled from the spec: `resolve(node_id)` (spec section 4.1). -/
def resolve (f : FlowGraph) (nid : String) : Option NodeDef :=
  lookupField f.nodes nid

/-- Modelled from the spec: `next_node(node_id, outcome)` — the first
declared edge for the outcome, or `none` (terminal) when the node
declares no such edge (spec section 4.1). -/
def nextNode (f : FlowGraph) (nid : String) (outcome : String) : Option String :=
  (resolve f nid).bind (fun nd => lookupField nd.output_edges outcome)

/-- Whether some node has an edge into `nid`. -/
def hasIncoming (f : FlowGraph) (nid : String) : Bool :=
  f.nodes.any (fun p => p.2.output_edges.any (fun e => e.2 = nid))

/-- Modelled from the spec: the entry point — the first declared node
with no incoming edge, falling back to the first declared node for a
fully cyclic graph (spec section 4.1). -/
def entryNode (f : FlowGraph) : Option String :=
  match f.nodes.find? (fun p => ¬ hasIncoming f p.1) with
  | some p => some p.1
  | none => f.nodes.head?.map (fun p => p.1)

/-- Insert or overwrite a binding in an association list, keeping the
position of an existing key (no key is ever removed). -/
def insertField {α : Type} : List (String × α) → String → α → List (String × α)
  | [], k, v => [(k, v)]
  | (k0, v0) :: rest, k, v =>
    if k0 = k then (k, v) :: rest else (k0, v0) :: insertField rest k v

/-- Modelled from the spec: merge node bindings into the global scope —
keys are added or overwritten, never removed (spec sections 3, 4.3). -/
def mergeVars (globals newBindings : List (String × Json)) : List (String × Json) :=
  newBindings.foldl (fun g p => insertField g p.1 p.2) globals

/-- Modelled from the spec: a node not yet visited is Pending (spec
section 3). -/
def statusOf (s : DebugSession) (nid : String) : NodeStatus :=
  match lookupField s.node_executions nid with
  | some r => r.status
  | none => .pending

/-- Terminal session states (spec section 3). -/
def isTerminal : SessionState → Bool
  | .completed => true
  | .failed => true
  | .stopped => true
  | _ => false

/-- Modelled from the spec: step 1 of the stepping algorithm — the node
to execute is `current_node_id` when its status is Pending, otherwise
the next node in the planned path after the recorded outcome of
`current_node_id` (spec section 4.3). -/
def nodeToExecute (f : FlowGraph) (s : DebugSession) : Option String :=
  match s.current_node_id with
  | none => none
  | some nid =>
    if statusOf s nid = .pending then some nid
    else
      match lookupField s.node_executions nid with
      | some r =>
        match r.status with
        | .success => nextNode f nid "success"
        | .error => nextNode f nid "error"
        | _ => none
      | none => none

/-- Append to `execution_order` unless already the last entry (spec
section 4.3 step 4). -/
def appendIfNotLast (xs : List String) (nid : String) : List String :=
  if xs.getLast? = some nid then xs else xs ++ [nid]

/-- Modelled from the spec: one node execution, steps 1-7 of spec
section 4.3, for a session already known to be non-terminal.  A node
that cannot be identified or resolved fails the call with
`UnknownNode` (spec sections 4.1, 7); the transient Running status of
step 2 is not observable in the returned snapshot. -/
def stepCore (a : Adapter) (f : FlowGraph) (now : Int) (s : DebugSession) :
    Except DebugError DebugSession :=
  match nodeToExecute f s with
  | none => .error .unknownNode
  | some nid =>
    match resolve f nid with
    | none => .error .unknownNode
    | some nd =>
      let res := a nd s.global_variables
      if res.outcome = "error" then
        let r : NodeExecution :=
          { node_id := nid, node_type := nd.node_type, label := nd.label,
            status := .error, start_time := some now, end_time := some now,
            output := none, error := res.error_message, vars := [] }
        let s1 := { s with node_executions := insertField s.node_executions nid r }
        match nextNode f nid "error" with
        | none =>
          .ok { s1 with state := .failed, current_node_id := some nid,
                        paused_at_breakpoint := false }
        | some nxt =>
          .ok { s1 with state := .paused, current_node_id := some nxt,
                        paused_at_breakpoint := false }
      else
        let r : NodeExecution :=
          { node_id := nid, node_type := nd.node_type, label := nd.label,
            status := .success, start_time := some now, end_time := some now,
            output := res.output, error := none, vars := res.bindings }
        let s1 := { s with
          node_executions := insertField s.node_executions nid r,
          global_variables := mergeVars s.global_variables res.bindings,
          execution_order := appendIfNotLast s.execution_order nid }
        match nextNode f nid res.outcome with
        | none =>
          .ok { s1 with state := .completed, current_node_id := some nid,
                        paused_at_breakpoint := false }
        | some nxt =>
          .ok { s1 with state := .paused, current_node_id := some nxt,
                        paused_at_breakpoint := false }

/-- Modelled from the spec: `step` — a command against a terminal
session is rejected with `SessionTerminated` without mutation (spec
sections 3, 4.3, 7), otherwise exactly one node runs and the session
pauses or ends. -/
def step (a : Adapter) (f : FlowGraph) (now : Int) (s : DebugSession) :
    Except DebugError DebugSession :=
  if isTerminal s.state then .error .sessionTerminated else stepCore a f now s

/-- Pause immediately before a breakpointed node (spec section 4.4). -/
def pauseAtBreakpoint (s : DebugSession) (nid : String) : DebugSession :=
  { s with state := .paused, current_node_id := some nid,
           paused_at_breakpoint := true }

/-- Record the divergence error on the about-to-execute node (spec
section 7: failures are data recorded on the NodeExecution), creating
an error record when the node has none yet. -/
def markDiverged (l : List (String × NodeExecution)) (nid : String) :
    List (String × NodeExecution) :=
  match lookupField l nid with
  | some r => insertField l nid { r with error := some "DivergenceDetected" }
  | none =>
    insertField l nid
      { node_id := nid, node_type := "unknown", label := nid,
        status := .error, start_time := none, end_time := none,
        output := none, error := some "DivergenceDetected", vars := [] }

/-- Modelled from the spec: the divergence safeguard forces the session
to Failed with a `DivergenceDetected` error (spec sections 4.4, 7). -/
def divergeFail (s : DebugSession) (nid : String) : DebugSession :=
  { s with state := .failed, node_executions := markDiverged s.node_executions nid }

/-- Modelled from the spec: the continue loop of section 4.4 — before
each node execution, pause if the about-to-execute node is a
breakpoint; fail with `DivergenceDetected` when the node-visit budget
is exhausted; otherwise run one node and loop while the session stays
paused (live). -/
def continueLoop (a : Adapter) (f : FlowGraph) (now : Int) :
    Nat → DebugSession → Except DebugError DebugSession
  | 0, s =>
    match nodeToExecute f s with
    | none => stepCore a f now s
    | some nid =>
      if nid ∈ s.breakpoints then .ok (pauseAtBreakpoint s nid)
      else .ok (divergeFail s nid)
  | n + 1, s =>
    match nodeToExecute f s with
    | none => stepCore a f now s
    | some nid =>
      if nid ∈ s.breakpoints then .ok (pauseAtBreakpoint s nid)
      else
        match stepCore a f now s with
        | .error e => .error e
        | .ok s1 => if s1.state = .paused then continueLoop a f now n s1 else .ok s1

/-- Modelled from the spec: `continue` with its caller-configurable
maximum node-visit count; a terminal session is rejected with
`SessionTerminated` (spec sections 3, 4.4). -/
def continueExec (a : Adapter) (f : FlowGraph) (now : Int) (maxVisits : Nat)
    (s : DebugSession) : Except DebugError DebugSession :=
  if isTerminal s.state then .error .sessionTerminated
  else continueLoop a f now maxVisits s

/-- Modelled from the spec: `start(flow, breakpoints)` — a fresh paused
session positioned at the entry node, with the opaque session id and
the start timestamp taken as inputs (spec sections 2, 3, 4.2). -/
def startSession (f : FlowGraph) (bps : List String) (sid : String) (now : Int) :
    DebugSession :=
  { session_id := sid, state := .paused, current_node_id := entryNode f,
    breakpoints := bps, execution_order := [], node_executions := [],
    global_variables := [], start_time := now, paused_at_breakpoint := false }

/-- Snapshots of `n` successive `step` calls, each fed the previous
snapshot; a rejected call ends the run. -/
def replaySteps (a : Adapter) (f : FlowGraph) (now : Int) :
    Nat → DebugSession → List DebugSession
  | 0, _ => []
  | n + 1, s =>
    match step a f now s with
    | .error _ => []
    | .ok s1 => s1 :: replaySteps a f now n s1

/-- A full replay: `start` followed by `n` `step` calls, returning every
snapshot produced. -/
def runScript (a : Adapter) (f : FlowGraph) (bps : List String) (sid : String)
    (now : Int) (n : Nat) : List DebugSession :=
  startSession f bps sid now :: replaySteps a f now n (startSession f bps sid now)

/-! ### ``Reachability`` side condition for serialization

A `DebugSessionState` deserialized from executor output never stores
`Some(Value::Null)` in an `output` field (`serde` reads `null` into an
`Option` as `None`), so every reachable snapshot satisfies the predicate
below; it is exactly the condition under which `serde` round-trips. -/

/-- No execution record stores a JSON `null` wrapped in `Some` as its
`output`. -/
def noNullOutputs (s : DebugSessionState) : Bool :=
  s.node_executions.all
    (fun p => match p.2.output with
      | some .null => false
      | _ => true)

/-! ### Concrete instances used in witnesses and counterexamples -/

/-- A concrete execution record (Rust layer). -/
def cRec : DebugNodeExecution :=
  { node_id := "A", node_type := "task", label := "Node A",
    status := "success", start_time := some 5, end_time := some 6,
    output := some (.str "done"), error := none,
    vars := .obj [("x", .num 1)] }

/-- A concrete session snapshot (Rust layer). -/
def cSession : DebugSessionState :=
  { session_id := "s-1", state := "paused", current_node_id := some "B",
    breakpoints := ["B"], execution_order := ["A"],
    node_executions := [("A", cRec)],
    global_variables := .obj [("x", .num 1)], start_time := 5,
    paused_at_breakpoint := true }

/-- A concrete JSON parser stub mapping the two line names used in the
`debug_step` output counterexample. -/
def cPj : String → Option Json := fun s =>
  if s = "L1" then
    some (.obj [("type", .str "state"), ("session", serializeSession cSession)])
  else if s = "L2" then
    some (.obj [("type", .str "state"), ("session", .num 5)])
  else none

/-- A concrete string-to-JSON parser stub used in witnesses. -/
def cParse : String → Except String Json := fun s =>
  if s = "bad" then .error "boom" else .ok (.obj [])

/-- An adapter stub that always succeeds with no output and no
bindings. -/
def okAdapter : Adapter := fun _ _ =>
  { outcome := "success", output := none, bindings := [], error_message := none }

/-- A second, separately written adapter stub with the same behaviour as
`okAdapter` (used to replay against a distinct but agreeing adapter). -/
def okAdapter2 : Adapter := fun _ _ =>
  { outcome := "success", output := none, bindings := [], error_message := none }

/-- Node `A` of the two-node linear flow (`A --success--> B`). -/
def nodeA : NodeDef :=
  { node_type := "task", label := "Node A", config := .null,
    output_edges := [("success", "B")] }

/-- Node `B` of the two-node linear flow (terminal). -/
def nodeB : NodeDef :=
  { node_type := "task", label := "Node B", config := .null,
    output_edges := [] }

/-- The two-node linear flow `A --success--> B --success--> (end)`. -/
def flowAB : FlowGraph := { nodes := [("A", nodeA), ("B", nodeB)] }

/-- The execution record of node `A` after its successful run at time
0. -/
def recA0 : NodeExecution :=
  { node_id := "A", node_type := "task", label := "Node A",
    status := .success, start_time := some 0, end_time := some 0,
    output := none, error := none, vars := [] }

/-- The session of `flowAB` with breakpoint `B`, after `A` ran: paused,
about to execute `B`. -/
def sessAtB : DebugSession :=
  { session_id := "s", state := .paused, current_node_id := some "B",
    breakpoints := ["B"], execution_order := ["A"],
    node_executions := [("A", recA0)], global_variables := [],
    start_time := 0, paused_at_breakpoint := false }

/-- A concrete terminal (stopped) session. -/
def stoppedSession : DebugSession :=
  { session_id := "s", state := .stopped, current_node_id := none,
    breakpoints := [], execution_order := [], node_executions := [],
    global_variables := [], start_time := 0,
    paused_at_breakpoint := false }

/-- The one-node cyclic flow `A --success--> A` of spec Scenario D. -/
def cycA : FlowGraph :=
  { nodes := [("A", { node_type := "task", label := "A", config := .null,
                      output_edges := [("success", "A")] })] }

/-- The execution record of the cyclic node `A` after a successful
visit. -/
def cycRec (now : Int) : NodeExecution :=
  { node_id := "A", node_type := "task", label := "A", status := .success,
    start_time := some now, end_time := some now, output := none,
    error := none, vars := [] }

/-- The fixed point the cyclic session reaches after the first visit of
`A`: every further visit reproduces it. -/
def cycAfter (sid : String) (now : Int) : DebugSession :=
  { session_id := sid, state := .paused, current_node_id := some "A",
    breakpoints := [], execution_order := ["A"],
    node_executions := [("A", cycRec now)], global_variables := [],
    start_time := now, paused_at_breakpoint := false }

/-! ## Theorems -/

/-- C1: `get_variables` is a pure read of the snapshot: with a node id
it returns the `variables` map of that node when an execution record is
present, and an empty map when the node has no execution record; with
no node id it returns the full `globalVariables` map.  (Being a
function of the snapshot value, the call cannot mutate it.) -/
theorem C1_get_variables_pure_read :
    (∀ (session : Json) (nid : String) (ne rec0 v : Json),
        session.get "nodeExecutions" = some ne → ne.get nid = some rec0 →
        rec0.get "variables" = some v →
        get_variables_core session (some nid) = .ok v) ∧
    (∀ (session : Json) (nid : String),
        (session.get "nodeExecutions").bind (fun ne => ne.get nid) = none →
        get_variables_core session (some nid) = .ok (.obj [])) ∧
    (∀ (session : Json) (g : Json),
        session.get "globalVariables" = some g →
        get_variables_core session none = .ok g) := by
  refine ⟨?_, ?_, ?_⟩
  · intro session nid ne rec0 v h1 h2 h3
    simp [get_variables_core, h1, h2, h3]
  · intro session nid h
    simp [get_variables_core, h]
  · intro session g h
    simp [get_variables_core, h]

/-- Witness for C1 on the concrete snapshot `cSession` (spec Scenario
E: node `A` executed with bindings `x = 1`; node `Z` never executed). -/
theorem C1_get_variables_witness :
    get_variables_core (serializeSession cSession) (some "A") = .ok (.obj [("x", .num 1)]) ∧
    get_variables_core (serializeSession cSession) (some "Z") = .ok (.obj []) ∧
    get_variables_core (serializeSession cSession) none = .ok (.obj [("x", .num 1)]) :=
  ⟨C1_get_variables_pure_read.1 (serializeSession cSession) "A"
      (.obj [("A", serializeNodeExecution cRec)]) (serializeNodeExecution cRec)
      (.obj [("x", .num 1)]) rfl rfl rfl,
   C1_get_variables_pure_read.2.1 (serializeSession cSession) "Z" rfl,
   C1_get_variables_pure_read.2.2 (serializeSession cSession) (.obj [("x", .num 1)]) rfl⟩

/-- C9: an input that does not parse as JSON fails with a message
beginning with "Invalid session state"; an input that parses, of any
shape, yields `Ok`, with an empty map whenever the requested node id or
the `nodeExecutions` or `globalVariables` fields are absent. -/
theorem C9_get_variables_error_contract :
    (∀ (parse : String → Except String Json) (s : String) (nid : Option String) (e : String),
        parse s = .error e →
        debug_get_variables parse s nid = .error ("Invalid session state: " ++ e) ∧
        ∃ rest, ("Invalid session state: " ++ e) = "Invalid session state" ++ rest) ∧
    (∀ (parse : String → Except String Json) (s : String) (nid : Option String) (j : Json),
        parse s = .ok j → ∃ v, debug_get_variables parse s nid = .ok v) ∧
    (∀ (j : Json) (nid : String), j.get "nodeExecutions" = none →
        get_variables_core j (some nid) = .ok (.obj [])) ∧
    (∀ (j : Json), j.get "globalVariables" = none →
        get_variables_core j none = .ok (.obj [])) := by
  refine ⟨?_, ?_, ?_, ?_⟩
  · intro parse s nid e h
    refine ⟨by simp [debug_get_variables, h], ": " ++ e, ?_⟩
    have hlit : "Invalid session state" ++ ": " = "Invalid session state: " := rfl
    rw [← String.append_assoc, hlit]
  · intro parse s nid j h
    rcases nid with _ | nid
    · exact ⟨(j.get "globalVariables").getD (.obj []),
        by simp [debug_get_variables, h, get_variables_core]⟩
    · rcases hne : (j.get "nodeExecutions").bind (fun ne => ne.get nid) with _ | rec0
      · exact ⟨.obj [], by simp [debug_get_variables, h, get_variables_core, hne]⟩
      · exact ⟨(rec0.get "variables").getD (.obj []),
          by simp [debug_get_variables, h, get_variables_core, hne]⟩
  · intro j nid h
    simp [get_variables_core, h]
  · intro j h
    simp [get_variables_core, h]

/-- Witness for C9: a failing parse yields the prefixed error, a
trivial parse yields `Ok`. -/
theorem C9_get_variables_witness :
    (debug_get_variables cParse "bad" none = .error ("Invalid session state: " ++ "boom") ∧
      ∃ rest, ("Invalid session state: " ++ "boom") = "Invalid session state" ++ rest) ∧
    (∃ v, debug_get_variables cParse "good" (some "A") = .ok v) ∧
    get_variables_core (.obj []) (some "A") = .ok (.obj []) ∧
    get_variables_core (.obj []) none = .ok (.obj []) :=
  ⟨C9_get_variables_error_contract.1 cParse "bad" none "boom" rfl,
   C9_get_variables_error_contract.2.1 cParse "good" (some "A") (.obj []) rfl,
   C9_get_variables_error_contract.2.2.1 (.obj []) "A" rfl,
   C9_get_variables_error_contract.2.2.2 (.obj []) rfl⟩

/-- C2: every command against a session in a terminal state (Completed,
Failed or Stopped) is rejected with `SessionTerminated`; the rejected
call returns no new snapshot, so the session value is untouched. -/
theorem C2_terminal_rejects_commands :
    ∀ (a : Adapter) (f : FlowGraph) (now : Int) (cap : Nat) (s : DebugSession),
      (s.state = .completed ∨ s.state = .failed ∨ s.state = .stopped) →
      step a f now s = .error .sessionTerminated ∧
      continueExec a f now cap s = .error .sessionTerminated := by
  intro a f now cap s h
  have ht : isTerminal s.state = true := by
    rcases h with h | h | h <;> rw [h] <;> rfl
  constructor <;> simp [step, continueExec, ht]

/-- Witness for C2 on a concrete stopped session. -/
theorem C2_terminal_witness :
    step okAdapter flowAB 0 stoppedSession = .error .sessionTerminated ∧
    continueExec okAdapter flowAB 0 5 stoppedSession = .error .sessionTerminated :=
  C2_terminal_rejects_commands okAdapter flowAB 0 5 stoppedSession (Or.inr (Or.inr rfl))

/-- Counterexample to C4: no call of the Rust `debug_stop` produces a
Stopped snapshot at all — its result carries no session state, so
"calling stop twice produces the same Stopped snapshot both times" is
false already on the first call. -/
theorem C4_stop_counterexample :
    ¬ ∃ st : DebugSessionState, debug_stop.session_state = some st ∧ st.state = "stopped" := by
  rintro ⟨st, h, _⟩
  simp [debug_stop] at h

/-- C4 amended: `debug_stop` ignores the session entirely and returns
one fixed result on every call, so two calls in sequence agree; it
never fails (`success = true`), but no Stopped snapshot is produced and
no session transition happens. -/
theorem C4_stop_idempotent_amended :
    debug_stop.success = true ∧
    debug_stop.session_state = none ∧
    debug_stop.last_event = some (.obj [("type", .str "stopped")]) :=
  ⟨rfl, rfl, rfl⟩

/-- Counterexample to C5: `debug_stop` takes no prior snapshot and its
result holds no snapshot, so it does not return the prior session data
frozen in state Stopped (shown here against the concrete prior snapshot
`cSession`). -/
theorem C5_stop_counterexample :
    debug_stop.session_state ≠ some { cSession with state := "stopped" } := by
  simp [debug_stop]

/-- C5 amended: `debug_stop` returns no session snapshot — the result
carries only the success flag, a fixed message and a stopped event;
whatever session data the caller holds is neither read nor returned by
the call. -/
theorem C5_stop_amended :
    debug_stop.session_state = none ∧
    debug_stop.message = some "Debug session stopped" :=
  ⟨rfl, rfl⟩

/-! ### Frame lemmas for the stepping machine -/

theorem lookupField_insertField_ne {α : Type} (l : List (String × α)) (k key : String)
    (v : α) (h : k ≠ key) :
    lookupField (insertField l k v) key = lookupField l key := by
  induction l with
  | nil => simp [insertField, lookupField, h]
  | cons p rest ih =>
    rcases p with ⟨k0, v0⟩
    by_cases hk : k0 = k
    · subst hk
      simp [insertField, lookupField, h]
    · simp only [insertField, if_neg hk, lookupField]
      split <;> simp [ih]

theorem stepCore_of_none (a : Adapter) (f : FlowGraph) (now : Int) (s : DebugSession)
    (h : nodeToExecute f s = none) : stepCore a f now s = .error .unknownNode := by
  unfold stepCore
  rw [h]

theorem stepCore_ok_frame (a : Adapter) (f : FlowGraph) (now : Int)
    (s s1 : DebugSession) (h : stepCore a f now s = .ok s1) :
    s1.breakpoints = s.breakpoints ∧
    ∀ k, nodeToExecute f s ≠ some k →
      lookupField s1.node_executions k = lookupField s.node_executions k := by
  unfold stepCore at h
  simp only [] at h
  split at h
  · exact absurd h (by simp)
  · rename_i nid hn
    split at h
    · exact absurd h (by simp)
    · rename_i nd hr
      have key : ∀ k, nodeToExecute f s ≠ some k → nid ≠ k := by
        intro k hk he
        exact hk (he ▸ hn)
      split at h <;> split at h <;>
        (cases Except.ok.inj h
         exact ⟨rfl, fun k hk => lookupField_insertField_ne _ _ _ _ (key k hk)⟩)

theorem lookupField_markDiverged_ne (l : List (String × NodeExecution))
    (nid b : String) (h : nid ≠ b) :
    lookupField (markDiverged l nid) b = lookupField l b := by
  unfold markDiverged
  split <;> exact lookupField_insertField_ne _ _ _ _ h

/-- Across a whole `continue` call, the execution record of a
breakpointed node is never touched, and the breakpoint set survives. -/
theorem continueLoop_no_execute (a : Adapter) (f : FlowGraph) (now : Int) (b : String) :
    ∀ (n : Nat) (s s1 : DebugSession), b ∈ s.breakpoints →
      continueLoop a f now n s = .ok s1 →
      lookupField s1.node_executions b = lookupField s.node_executions b ∧
      b ∈ s1.breakpoints := by
  intro n
  induction n with
  | zero =>
    intro s s1 hb h
    rw [continueLoop] at h
    split at h
    · rename_i hn
      rw [stepCore_of_none a f now s hn] at h
      exact absurd h (by simp)
    · rename_i nid hn
      split at h
      · cases Except.ok.inj h
        exact ⟨rfl, hb⟩
      · rename_i hnb
        cases Except.ok.inj h
        have hnid : nid ≠ b := fun he => hnb (he ▸ hb)
        exact ⟨lookupField_markDiverged_ne _ _ _ hnid, hb⟩
  | succ n ih =>
    intro s s1 hb h
    rw [continueLoop] at h
    split at h
    · rename_i hn
      rw [stepCore_of_none a f now s hn] at h
      exact absurd h (by simp)
    · rename_i nid hn
      split at h
      · cases Except.ok.inj h
        exact ⟨rfl, hb⟩
      · rename_i hnb
        split at h
        · exact absurd h (by simp)
        · rename_i s2 hs
          obtain ⟨hb2, hfr⟩ := stepCore_ok_frame a f now s s2 hs
          have hnid : nid ≠ b := fun he => hnb (he ▸ hb)
          have hkeep : lookupField s2.node_executions b = lookupField s.node_executions b := by
            refine hfr b ?_
            rw [hn]
            exact fun hcon => hnid (Option.some.inj hcon)
          have hb2' : b ∈ s2.breakpoints := hb2 ▸ hb
          split at h
          · obtain ⟨h1, h2⟩ := ih s2 s1 hb2' h
            exact ⟨h1.trans hkeep, h2⟩
          · cases Except.ok.inj h
            exact ⟨hkeep, hb2'⟩

/-- C3: `continue` never executes a node in `breakpoints`: whenever the
about-to-execute node is a breakpoint, the call pauses immediately
before it with `paused_at_breakpoint = true` and `current_node_id` the
breakpointed node, and across any `continue` call the execution record
of a breakpointed node is left untouched. -/
theorem C3_breakpoint_precision :
    ∀ (a : Adapter) (f : FlowGraph) (now : Int) (cap : Nat) (s : DebugSession) (b : String),
      b ∈ s.breakpoints →
      (nodeToExecute f s = some b → isTerminal s.state = false →
        continueExec a f now cap s = .ok (pauseAtBreakpoint s b) ∧
        (pauseAtBreakpoint s b).state = .paused ∧
        (pauseAtBreakpoint s b).paused_at_breakpoint = true ∧
        (pauseAtBreakpoint s b).current_node_id = some b) ∧
      (∀ s1, continueExec a f now cap s = .ok s1 →
        lookupField s1.node_executions b = lookupField s.node_executions b) := by
  intro a f now cap s b hb
  constructor
  · intro hn ht
    refine ⟨?_, rfl, rfl, rfl⟩
    unfold continueExec
    rw [ht]
    cases cap with
    | zero =>
      rw [continueLoop, hn]
      simp [hb]
    | succ n =>
      rw [continueLoop, hn]
      simp [hb]
  · intro s1 h
    unfold continueExec at h
    split at h
    · exact absurd h (by simp)
    · exact (continueLoop_no_execute a f now b cap s s1 hb h).1

/-- Witness for C3: on the linear flow with breakpoint `B`, the session
paused after `A` pauses again before executing `B`, and the record of
`B` stays untouched. -/
theorem C3_breakpoint_witness :
    continueExec okAdapter flowAB 0 5 sessAtB = .ok (pauseAtBreakpoint sessAtB "B") ∧
    (pauseAtBreakpoint sessAtB "B").paused_at_breakpoint = true ∧
    (pauseAtBreakpoint sessAtB "B").current_node_id = some "B" ∧
    lookupField (pauseAtBreakpoint sessAtB "B").node_executions "B" =
      lookupField sessAtB.node_executions "B" :=
  have hm : "B" ∈ sessAtB.breakpoints := by decide
  have h1 := (C3_breakpoint_precision okAdapter flowAB 0 5 sessAtB "B" hm).1 rfl rfl
  have h2 := (C3_breakpoint_precision okAdapter flowAB 0 5 sessAtB "B" hm).2
    (pauseAtBreakpoint sessAtB "B") h1.1
  ⟨h1.1, h1.2.2.1, h1.2.2.2, h2⟩

/-! ### Divergence on the cyclic flow -/

theorem cyc_step_start (sid : String) (now : Int) :
    stepCore okAdapter cycA now (startSession cycA [] sid now) = .ok (cycAfter sid now) := rfl

theorem cyc_step_fix (sid : String) (now : Int) :
    stepCore okAdapter cycA now (cycAfter sid now) = .ok (cycAfter sid now) := rfl

theorem cyc_loop_fix (sid : String) (now : Int) :
    ∀ n : Nat, continueLoop okAdapter cycA now n (cycAfter sid now) =
      .ok (divergeFail (cycAfter sid now) "A") := by
  intro n
  induction n with
  | zero => rfl
  | succ n ih =>
    have hstep : continueLoop okAdapter cycA now (n + 1) (cycAfter sid now) =
        continueLoop okAdapter cycA now n (cycAfter sid now) := rfl
    rw [hstep, ih]

/-- C6: `continue` takes the node-visit budget as a caller-supplied
argument, and on the cyclic flow `A --success--> A` (spec Scenario D),
for every budget the run exceeds it and the session is forced to
Failed with a `DivergenceDetected` error recorded on the looping node
instead of running forever. -/
theorem C6_divergence_safeguard :
    ∀ (cap : Nat) (sid : String) (now : Int),
      ∃ s1, continueExec okAdapter cycA now cap (startSession cycA [] sid now) = .ok s1 ∧
        s1.state = .failed ∧
        (lookupField s1.node_executions "A").map (fun r => r.error) =
          some (some "DivergenceDetected") := by
  intro cap sid now
  cases cap with
  | zero => exact ⟨divergeFail (startSession cycA [] sid now) "A", rfl, rfl, rfl⟩
  | succ n =>
    refine ⟨divergeFail (cycAfter sid now) "A", ?_, rfl, rfl⟩
    have h1 : continueExec okAdapter cycA now (n + 1) (startSession cycA [] sid now) =
        continueLoop okAdapter cycA now n (cycAfter sid now) := rfl
    rw [h1, cyc_loop_fix sid now n]

/-! ### Determinism of replay -/

/-- C8: with a deterministic adapter, every command is a function of
the prior snapshot and its input: two replays of `start` followed by
the same number of `step` calls, against equal flows and adapters that
agree on every node and variable environment, produce identical
snapshot sequences. -/
theorem C8_replay_deterministic :
    ∀ (a1 a2 : Adapter) (f1 f2 : FlowGraph) (bps : List String) (sid : String)
      (now : Int) (n : Nat),
      (∀ nd g, a1 nd g = a2 nd g) → f1 = f2 →
      runScript a1 f1 bps sid now n = runScript a2 f2 bps sid now n := by
  intro a1 a2 f1 f2 bps sid now n h hf
  subst hf
  have ha : a1 = a2 := funext fun nd => funext fun g => h nd g
  rw [ha]

/-- Witness for C8: two runs of the linear flow with pointwise equal
adapter stubs coincide. -/
theorem C8_replay_witness :
    runScript okAdapter flowAB [] "s" 0 2 = runScript okAdapter2 flowAB [] "s" 0 2 :=
  C8_replay_deterministic okAdapter okAdapter2 flowAB flowAB [] "s" 0 2
    (fun _ _ => rfl) rfl

/-! ### Serialization round-trip -/

theorem decodeStrList_map (xs : List String) :
    decodeStrList (xs.map .str) = some xs := by
  induction xs with
  | nil => rfl
  | cons x rest ih => simp [decodeStrList, asStr, ih]

theorem nodeExec_roundtrip (r : DebugNodeExecution) (h : r.output ≠ some .null) :
    deserializeNodeExecution (serializeNodeExecution r) = some r := by
  rcases r with ⟨nid, nty, lbl, st, t1, t2, out, err, vs⟩
  rcases out with _ | v
  · cases t1 <;> cases t2 <;> cases err <;> rfl
  · rcases v with _ | b | n | s0 | xs | fs0
    · exact absurd rfl h
    all_goals cases t1 <;> cases t2 <;> cases err <;> rfl

theorem decodeNodeExecList_map (l : List (String × DebugNodeExecution))
    (h : ∀ p ∈ l, p.2.output ≠ some .null) :
    decodeNodeExecList (l.map (fun p => (p.1, serializeNodeExecution p.2))) = some l := by
  induction l with
  | nil => rfl
  | cons p rest ih =>
    rcases p with ⟨k, r⟩
    have h1 : r.output ≠ some .null := h (k, r) (by simp)
    have h2 : ∀ q ∈ rest, q.2.output ≠ some .null := fun q hq => h q (by simp [hq])
    simp [decodeNodeExecList, nodeExec_roundtrip r h1, ih h2]

/-- C7: `serde` round-trips every reachable snapshot —
`deserialize(serialize(s)) = s` for every `DebugSessionState` whose
execution records do not wrap a JSON `null` inside `Some` as their
`output` (a shape no deserialized, hence no reachable, snapshot has:
`serde` always reads `null` into `None`). -/
theorem C7_session_roundtrip :
    ∀ s : DebugSessionState, noNullOutputs s = true →
      deserializeSession (serializeSession s) = some s := by
  intro s h
  have h' : ∀ p ∈ s.node_executions, p.2.output ≠ some .null := by
    intro p hp hout
    have hall := List.all_eq_true.mp h p hp
    rw [hout] at hall
    exact Bool.noConfusion hall
  rcases s with ⟨sid, st, cur, bps, eo, ne, gv, t0, pb⟩
  cases cur <;>
    simp [serializeSession, deserializeSession, getReqField, getOptField,
      lookupField, asStr, asNum, asBool, asStrList, serializeOptStr,
      decodeStrList_map, decodeNodeExecList_map ne h']

/-- Witness for C7 on the concrete snapshot `cSession`. -/
theorem C7_session_roundtrip_witness :
    noNullOutputs cSession = true ∧
    deserializeSession (serializeSession cSession) = some cSession :=
  ⟨rfl, C7_session_roundtrip cSession rfl⟩

/-! Reachability support for C7: a snapshot obtained by deserialization
always satisfies `noNullOutputs`, so the round-trip side condition holds
for every snapshot the Rust layer can actually hold. -/

theorem getOptField_id_no_null (fs : List (String × Json)) (key : String)
    (o : Option Json) (h : getOptField fs key (fun v => some v) = some o) :
    o ≠ some .null := by
  unfold getOptField at h
  rcases hl : lookupField fs key with _ | v
  · rw [hl] at h
    cases Option.some.inj h
    simp
  · rw [hl] at h
    rcases v with _ | b | n | s0 | xs | fs0
    · cases Option.some.inj h
      simp
    all_goals
      (cases Option.some.inj h
       simp)

theorem deserializeNodeExecution_no_null (j : Json) (r : DebugNodeExecution)
    (h : deserializeNodeExecution j = some r) : r.output ≠ some .null := by
  unfold deserializeNodeExecution at h
  split at h
  · simp only [bind, pure, Option.bind_eq_some, Option.some.injEq] at h
    rcases h with ⟨nid, _, nty, _, lbl, _, st, _, t1, _, t2, _, out, hout, err, _, vs, _, hr⟩
    have hno := getOptField_id_no_null _ _ _ hout
    rw [← hr]
    exact hno
  · exact absurd h (by simp)

theorem decodeNodeExecList_no_null :
    ∀ (entries : List (String × Json)) (l : List (String × DebugNodeExecution)),
      decodeNodeExecList entries = some l →
      ∀ p ∈ l, p.2.output ≠ some .null := by
  intro entries
  induction entries with
  | nil =>
    intro l h p hp
    cases Option.some.inj h
    cases hp
  | cons e rest ih =>
    intro l h p hp
    rcases e with ⟨k, v⟩
    unfold decodeNodeExecList at h
    simp only [bind, pure, Option.bind_eq_some, Option.some.injEq] at h
    rcases h with ⟨r, hr, rs, hrs, hl⟩
    rw [← hl] at hp
    rcases List.mem_cons.mp hp with hhead | htail
    · rw [hhead]
      exact deserializeNodeExecution_no_null v r hr
    · exact ih rs hrs p htail

theorem deserializeSession_noNullOutputs (j : Json) (s : DebugSessionState)
    (h : deserializeSession j = some s) : noNullOutputs s = true := by
  unfold deserializeSession at h
  split at h
  · simp only [bind, pure, Option.bind_eq_some, Option.some.injEq] at h
    rcases h with ⟨sid, _, st, _, cur, _, bps, _, eo, _, ne, hne, gv, _, t0, _, pb, _, hs⟩
    unfold getReqField at hne
    simp only [Option.bind_eq_some] at hne
    rcases hne with ⟨v, _, hv⟩
    have hlist : ∀ p ∈ ne, p.2.output ≠ some Json.null := by
      rcases v with _ | b | n | s0 | xs | entries
      · exact absurd hv (by simp)
      · exact absurd hv (by simp)
      · exact absurd hv (by simp)
      · exact absurd hv (by simp)
      · exact absurd hv (by simp)
      · exact decodeNodeExecList_no_null entries ne hv
    rw [← hs]
    unfold noNullOutputs
    rw [List.all_eq_true]
    intro p hp
    have hno := hlist p hp
    rcases hout : p.2.output with _ | w
    · rfl
    · rcases w with _ | _ | _ | _ | _ | _
      · exact absurd hout hno
      all_goals rfl
  · exact absurd h (by simp)

/-! ### Characterizing the stdout-line fold -/

theorem foldl_or_shift {α β : Type} (h : β → Option α) :
    ∀ (msgs : List β) (a : Option α),
      msgs.foldl (fun acc m => (h m).or acc) a =
        (msgs.foldl (fun acc m => (h m).or acc) none).or a := by
  intro msgs
  induction msgs with
  | nil => intro a; rfl
  | cons m rest ih =>
    intro a
    rw [List.foldl_cons, List.foldl_cons, ih ((h m).or a), ih ((h m).or none)]
    rw [Option.or_none, Option.or_assoc]

theorem foldl_match_filterMap (pj : String → Option Json) :
    ∀ (lines : List String) (acc : Option DebugSessionState × Option Json),
      lines.foldl
        (fun acc line =>
          match pj line with
          | none => acc
          | some msg => processLine acc msg) acc
      = (lines.filterMap pj).foldl processLine acc := by
  intro lines
  induction lines with
  | nil => intro acc; rfl
  | cons l rest ih =>
    intro acc
    cases hp : pj l <;> simp [List.filterMap_cons, hp, List.foldl_cons, ih]

theorem processLine_fst (acc : Option DebugSessionState × Option Json) (msg : Json) :
    (processLine acc msg).1 =
      match sessionPayload msg with
      | some sv => deserializeSession sv
      | none => acc.1 := by
  simp only [processLine, sessionPayload]
  split <;> rfl

theorem processLine_snd (acc : Option DebugSessionState × Option Json) (msg : Json) :
    (processLine acc msg).2 = some msg := rfl

theorem foldl_processLine_spec :
    ∀ (msgs : List Json) (acc : Option DebugSessionState × Option Json),
      msgs.foldl processLine acc =
        ((match msgs.foldl (fun a m => (sessionPayload m).or a) none with
          | some sv => deserializeSession sv
          | none => acc.1),
         (match msgs.getLast? with
          | some m => some m
          | none => acc.2)) := by
  intro msgs
  induction msgs with
  | nil => intro acc; rfl
  | cons m rest ih =>
    intro acc
    rw [List.foldl_cons, ih (processLine acc m)]
    refine Prod.ext ?_ ?_
    · rw [processLine_fst]
      rw [List.foldl_cons, foldl_or_shift sessionPayload rest ((sessionPayload m).or none),
        Option.or_none]
      cases rest.foldl (fun a m => (sessionPayload m).or a) none <;> rfl
    · rw [processLine_snd]
      cases rest with
      | nil => rfl
      | cons r rs =>
        rw [List.getLast?_cons_cons]
        cases hL : (r :: rs).getLast? with
        | some x => rfl
        | none => simp at hL

/-- C10 amended: the result of `debug_step` / `debug_continue` is a
deterministic function of the stdout lines, but the recovered session
is the deserialization of the `session` field of the *last* line with
`"type": "state"` and a `session` field present — when that final
deserialization fails, the session state is `None` even if an earlier
line deserialized; `last_event` is the last line parsing as JSON, and
`success` holds exactly when the final session state is present. -/
theorem C10_output_processing_amended :
    ∀ (pj : String → Option Json) (lines : List String),
      (debug_step_result pj lines).session_state =
        (lastSessionField pj lines).bind deserializeSession ∧
      (debug_step_result pj lines).last_event = lastParsedLine pj lines ∧
      (debug_step_result pj lines).success =
        ((lastSessionField pj lines).bind deserializeSession).isSome ∧
      (debug_continue_result pj lines).session_state =
        (lastSessionField pj lines).bind deserializeSession ∧
      (debug_continue_result pj lines).last_event = lastParsedLine pj lines ∧
      (debug_continue_result pj lines).success =
        ((lastSessionField pj lines).bind deserializeSession).isSome := by
  intro pj lines
  have hkey : processOutputLines pj lines =
      ((lastSessionField pj lines).bind deserializeSession, lastParsedLine pj lines) := by
    unfold processOutputLines lastSessionField lastParsedLine
    rw [foldl_match_filterMap pj lines (none, none),
      foldl_processLine_spec (lines.filterMap pj) (none, none)]
    refine Prod.ext ?_ ?_
    · cases (lines.filterMap pj).foldl (fun a m => (sessionPayload m).or a) none <;> rfl
    · cases (lines.filterMap pj).getLast? <;> rfl
  unfold debug_step_result debug_continue_result buildCommandResult
  rw [hkey]
  exact ⟨rfl, rfl, rfl, rfl, rfl, rfl⟩

/-- Counterexample to C10: here the last line with a deserializable
`session` field is `L1` (the `session` of `L2` is a number, which does
not deserialize), so under the claim the result would carry the `L1`
session and succeed — but the code overwrites the recovered state with
the failed deserialization of `L2` and reports failure. -/
theorem C10_output_processing_counterexample :
    (debug_step_result cPj ["L1", "L2"]).session_state = none ∧
    (debug_step_result cPj ["L1", "L2"]).success = false ∧
    cPj "L1" = some (.obj [("type", .str "state"), ("session", serializeSession cSession)]) ∧
    deserializeSession (serializeSession cSession) = some cSession ∧
    deserializeSession (.num 5) = none :=
  ⟨rfl, rfl, rfl, rfl, rfl⟩

end Skuldbot
